import Mathlib

/-!
Verification of the defects4cpp metadata registry and build command.

The development shallowly embeds the relevant parts of
`defects4cpp/taxonomy/__init__.py` and `defects4cpp/processor/build.py`:
pure helpers become Lean functions, the mutable `MetaData` object becomes
explicit state passing, Python exceptions become `Except`/error values, and
the descriptor file on disk is passed to each operation as a parsed
document value.  A raw descriptor document is modelled with `Option` fields
(`none` = the key is absent from the JSON object), so that Python's
`KeyError` behaviour is representable.
-/

namespace Defects4cpp

/-- taxonomy/__init__.py: class TestType(enum.IntEnum). -/
inductive TestType where
  | Automake
  | CTest
  | GoogleTest
deriving DecidableEq, Repr

/-- taxonomy/__init__.py: @dataclass Gcov. -/
structure Gcov where
  exclude : List String
  command : List String
deriving DecidableEq, Repr

/-- taxonomy/__init__.py: @dataclass Common.  The `test_type` field is
annotated `TestType` in the source, but `to_enum` can in fact return
Python `None`, so the field is modelled as `Option TestType`. -/
structure Common where
  build_command : List String
  build_coverage_command : List String
  test_type : Option TestType
  test_command : List String
  test_coverage_command : List String
  gcov : Gcov
deriving DecidableEq, Repr

/-- taxonomy/__init__.py: @dataclass Defect. -/
structure Defect where
  hash : String
  buggy_patch : String
  split_patch : String
  cases : Nat
deriving DecidableEq, Repr

/-- taxonomy/__init__.py: @dataclass MetaInfo. -/
structure MetaInfo where
  url : String
  description : String
  vcs : String
deriving DecidableEq, Repr

/-- The mutable state of a `MetaData` object: the two constructor arguments
plus the three lazily loaded fields exactly as set by `MetaData.__init__`
(`_info = None`, `_common = None`, `_defects = []`). -/
structure MetaData where
  name : String
  _path : String
  _info : Option MetaInfo
  _common : Option Common
  _defects : List Defect
deriving DecidableEq, Repr

/-- MetaData.__init__(name, path). -/
def MetaData.init (name path : String) : MetaData :=
  ⟨name, path, none, none, []⟩

/-- MetaData.dockerfile property. -/
def MetaData.dockerfile (m : MetaData) : String :=
  m._path ++ "/Dockerfile"

/-- Modelled from the spec (the `errors` module is not among the sources):
the taxonomy-load error "carries the missing field name and the target
record type"; the source constructs it as
`errors.DppTaxonomyInitError(e.args[0], <Record>.__name__)`. -/
structure DppTaxonomyInitError where
  field : String
  record : String
deriving DecidableEq, Repr

/-! ### The raw descriptor document

Each field is `some v` when the JSON key is present with value `v` and
`none` when the key is absent.  Values of unmodelled shapes (wrong types,
extra keys) are outside the embedding: the claims under study only concern
present/absent required fields. -/

/-- One entry of the raw `defects` array. -/
structure RawDefect where
  hash : Option String
  patch : Option Nat
  cases : Option Nat
deriving DecidableEq, Repr

/-- A `{"command": [...]}` table such as `common.build`. -/
structure RawCommandTable where
  command : Option (List String)
deriving DecidableEq, Repr

/-- The raw `common.gcov` table. -/
structure RawGcov where
  exclude : Option (List String)
  command : Option (List String)
deriving DecidableEq, Repr

/-- The raw `common` section.  Lean field `build_coverage` stands for JSON
key `build-coverage`, `test_type` for `test-type`, `test_coverage` for
`test-coverage`. -/
structure RawCommon where
  build : Option RawCommandTable
  build_coverage : Option RawCommandTable
  test_type : Option String
  test : Option RawCommandTable
  test_coverage : Option RawCommandTable
  gcov : Option RawGcov
deriving DecidableEq, Repr

/-- The raw `info` section; `short_desc` stands for JSON key `short-desc`. -/
structure RawInfo where
  url : Option String
  short_desc : Option String
  vcs : Option String
deriving DecidableEq, Repr

/-- A parsed descriptor document (the result of `json.load`). -/
structure RawMeta where
  info : Option RawInfo
  common : Option RawCommon
  defects : Option (List RawDefect)
deriving DecidableEq, Repr

/-- Python `d[key]`: the value when the key is present, otherwise a raised
`KeyError` carrying the key name (`e.args[0]`). -/
def getKey {α : Type} (v : Option α) (key : String) : Except String α :=
  match v with
  | some x => .ok x
  | none => .error key

/-- Python format spec `{n:04}` on a natural number: decimal digits,
zero-padded on the left to at least width 4. -/
def pad4 (n : Nat) : String :=
  let s := toString n
  String.mk (List.replicate (4 - s.length) '0') ++ s

/-- Boolean list-prefix test (Python substring search building block). -/
def isPre : List Char → List Char → Bool
  | [], _ => true
  | _ :: _, [] => false
  | a :: as, b :: bs => a == b && isPre as bs

/-- Boolean substring-occurrence test: does `pat` occur in `s`?  (For
non-empty `pat`; the only pattern used by the source is the non-empty
job marker.) -/
def hasSub (pat : List Char) : List Char → Bool
  | [] => List.isEmpty pat
  | c :: rest => isPre pat (c :: rest) || hasSub pat rest

/-- Fuel-driven worker for `replaceChars`.  Each step either copies one
character or consumes a whole occurrence of `pat` (at least one character,
for non-empty `pat`), so fuel `s.length` is always enough. -/
def replaceCharsAux (pat rep : List Char) : Nat → List Char → List Char
  | _, [] => []
  | 0, s => s
  | fuel + 1, c :: rest =>
    if !List.isEmpty pat && isPre pat (c :: rest) then
      rep ++ replaceCharsAux pat rep fuel (List.drop (pat.length - 1) rest)
    else
      c :: replaceCharsAux pat rep fuel rest

/-- Python `s.replace(pat, rep)` on character lists: every non-overlapping
occurrence of `pat`, scanning left to right, is replaced by `rep`.  (The
empty-pattern corner of `str.replace` is not modelled; the source only
replaces the fixed non-empty marker.) -/
def replaceChars (pat rep s : List Char) : List Char :=
  replaceCharsAux pat rep s.length s

/-- Python `s.replace(pat, rep)` on strings. -/
def pyReplace (s pat rep : String) : String :=
  String.mk (replaceChars pat.data rep.data s.data)

/-- `replace_make_job_flags` (local function of `MetaData._load_common`),
with the external `config.DPP_MAKE_JOB` value passed in as `dppMakeJob`:
`[opt.replace("@DPP_MAKE_JOB@", config.DPP_MAKE_JOB) for opt in options]`. -/
def replace_make_job_flags (dppMakeJob : String) (options : List String) :
    List String :=
  options.map (fun opt => pyReplace opt "@DPP_MAKE_JOB@" dppMakeJob)

/-- `to_enum` (local function of `MetaData._load_common`): the three
recognized strings map to the enum; any other input falls off the end of
the if/elif chain and yields Python `None`. -/
def to_enum (value : String) : Option TestType :=
  if value = "automake" then some TestType.Automake
  else if value = "ctest" then some TestType.CTest
  else if value = "gtest" then some TestType.GoogleTest
  else none

/-- The body of the list comprehension in `MetaData._load_info`: build one
`Defect` from one raw entry, deriving the two patch paths
`f"{path}/patch/{defect['patch']:04}-buggy.patch"` and `...-split.patch`. -/
def buildDefect (path : String) (d : RawDefect) : Except String Defect := do
  let h ← getKey d.hash "hash"
  let p ← getKey d.patch "patch"
  let c ← getKey d.cases "cases"
  pure ⟨h, path ++ "/patch/" ++ pad4 p ++ "-buggy.patch",
        path ++ "/patch/" ++ pad4 p ++ "-split.patch", c⟩

/-- `MetaData._load_info(meta)`.  Despite its name, the source method
builds the `Defect` list from `meta["defects"]`; a `KeyError` is wrapped
into the load error with record name `MetaInfo.__name__`. -/
def MetaData.load_info (path : String) (meta : RawMeta) :
    Except DppTaxonomyInitError (List Defect) :=
  match (do
      let ds ← getKey meta.defects "defects"
      ds.mapM (buildDefect path) : Except String (List Defect)) with
  | .ok v => .ok v
  | .error k => .error ⟨k, "MetaInfo"⟩

/-- `MetaData._load_common(meta)`, with the external `config.DPP_MAKE_JOB`
passed in.  Key lookups happen in the evaluation order of the Python
`Common(...)` call; a `KeyError` is wrapped with record name
`Common.__name__`. -/
def MetaData.load_common (dppMakeJob : String) (meta : RawMeta) :
    Except DppTaxonomyInitError Common :=
  match (do
      let com ← getKey meta.common "common"
      let b ← getKey com.build "build"
      let bcmd ← getKey b.command "command"
      let bc ← getKey com.build_coverage "build-coverage"
      let bccmd ← getKey bc.command "command"
      let tt ← getKey com.test_type "test-type"
      let t ← getKey com.test "test"
      let tcmd ← getKey t.command "command"
      let tc ← getKey com.test_coverage "test-coverage"
      let tccmd ← getKey tc.command "command"
      let g ← getKey com.gcov "gcov"
      let gex ← getKey g.exclude "exclude"
      let gcmd ← getKey g.command "command"
      pure (Common.mk
        (replace_make_job_flags dppMakeJob bcmd)
        (replace_make_job_flags dppMakeJob bccmd)
        (to_enum tt)
        (replace_make_job_flags dppMakeJob tcmd)
        (replace_make_job_flags dppMakeJob tccmd)
        (Gcov.mk (gex.map (fun d => d)) gcmd)) : Except String Common) with
  | .ok v => .ok v
  | .error k => .error ⟨k, "Common"⟩

/-- `MetaData._load_defects(meta)`.  Despite its name, the source method
builds `MetaInfo` from `meta["info"]`; a `KeyError` is wrapped with record
name `Defect.__name__`. -/
def MetaData.load_defects (meta : RawMeta) :
    Except DppTaxonomyInitError MetaInfo :=
  match (do
      let i ← getKey meta.info "info"
      let u ← getKey i.url "url"
      let d ← getKey i.short_desc "short-desc"
      let v ← getKey i.vcs "vcs"
      pure (MetaInfo.mk u d v) : Except String MetaInfo) with
  | .ok v => .ok v
  | .error k => .error ⟨k, "Defect"⟩

/-- `MetaData._load()`: read the descriptor once (`doc` is the parsed
file), then run `_load_info`, `_load_common`, `_load_defects` in order.
Each phase mutates its field on success before the next phase runs, so a
raised error leaves the mutations of the completed phases in place; the
result is the state after the completed mutations plus the error, if any. -/
def MetaData.load (dppMakeJob : String) (doc : RawMeta) (st : MetaData) :
    MetaData × Option DppTaxonomyInitError :=
  match MetaData.load_info st._path doc with
  | .error e => (st, some e)
  | .ok ds =>
    let st1 := { st with _defects := ds }
    match MetaData.load_common dppMakeJob doc with
    | .error e => (st1, some e)
    | .ok c =>
      let st2 := { st1 with _common := some c }
      match MetaData.load_defects doc with
      | .error e => (st2, some e)
      | .ok i => ({ st2 with _info := some i }, none)

/-- The `info` property: `if not self._info: self._load()` then
`return self._info`.  Returns the property result (or the raised error),
the state after the access, and whether the descriptor file was read. -/
def MetaData.infoAccess (dppMakeJob : String) (doc : RawMeta)
    (st : MetaData) :
    Except DppTaxonomyInitError (Option MetaInfo) × MetaData × Bool :=
  if st._info.isSome then (.ok st._info, st, false)
  else
    match MetaData.load dppMakeJob doc st with
    | (st2, some e) => (.error e, st2, true)
    | (st2, none) => (.ok st2._info, st2, true)

/-- The `common` property: `if not self._common: self._load()` then
`return self._common`. -/
def MetaData.commonAccess (dppMakeJob : String) (doc : RawMeta)
    (st : MetaData) :
    Except DppTaxonomyInitError (Option Common) × MetaData × Bool :=
  if st._common.isSome then (.ok st._common, st, false)
  else
    match MetaData.load dppMakeJob doc st with
    | (st2, some e) => (.error e, st2, true)
    | (st2, none) => (.ok st2._common, st2, true)

/-- The `defects` property: `if not self._defects: self._load()` then
`return self._defects`.  An empty list is falsy in Python, so an empty
cached list triggers a reload. -/
def MetaData.defectsAccess (dppMakeJob : String) (doc : RawMeta)
    (st : MetaData) :
    Except DppTaxonomyInitError (List Defect) × MetaData × Bool :=
  if st._defects.isEmpty then
    match MetaData.load dppMakeJob doc st with
    | (st2, some e) => (.error e, st2, true)
    | (st2, none) => (.ok st2._defects, st2, true)
  else (.ok st._defects, st, false)

/-! ### The Taxonomy registry -/

/-- The Python exception kinds raised by `Taxonomy` methods. -/
inductive PyError where
  | assertionError (msg : String)
  | keyError (key : String)
  | runtimeError (msg : String)
deriving DecidableEq, Repr

/-- A single-quote character, for building the assertion message of
`Taxonomy._keytransform`. -/
def squote : String := "\x27"

/-- `os.path.join` for the relative components the source joins
(`join(self.base, key, "meta.json")`): concatenation with a slash. -/
def joinPath (a b : String) : String := a ++ "/" ++ b

/-- The `Taxonomy` registry state: `base` (the taxonomy directory) and
`store`, the name-to-`MetaData` mapping built once at construction (the
`iter_modules` discovery that fills it is an external collaborator, so the
store contents are left abstract here). -/
structure Taxonomy where
  base : String
  store : List (String × MetaData)
deriving DecidableEq, Repr

/-- `Taxonomy._keytransform(key)`: assert that
`join(self.base, key, "meta.json")` exists, with message
`f"Taxonomy '{key}' does not exist"`; the filesystem is modelled by the
predicate `fsExists`. -/
def Taxonomy.keytransform (fsExists : String → Bool) (t : Taxonomy)
    (key : String) : Except PyError String :=
  if fsExists (joinPath (joinPath t.base key) "meta.json") then .ok key
  else
    .error (.assertionError
      ("Taxonomy " ++ squote ++ key ++ squote ++ " does not exist"))

/-- `Taxonomy.__getitem__(key)`: `self.store[self._keytransform(key)]` —
the assertion runs first, then the dict lookup.  The stored `MetaData` is
returned as-is: no lazy load is invoked here. -/
def Taxonomy.getitem (fsExists : String → Bool) (t : Taxonomy)
    (key : String) : Except PyError MetaData :=
  match Taxonomy.keytransform fsExists t key with
  | .error e => .error e
  | .ok k =>
    match t.store.lookup k with
    | some md => .ok md
    | none => .error (.keyError k)

/-- `Taxonomy.__setitem__`: raises unconditionally, so no updated registry
is ever produced. -/
def Taxonomy.setitem (t : Taxonomy) (key : String) (value : MetaData) :
    Except PyError Taxonomy :=
  .error (.runtimeError "set operator is not allowed")

/-- `Taxonomy.__delitem__`: raises unconditionally. -/
def Taxonomy.delitem (t : Taxonomy) (key : String) :
    Except PyError Taxonomy :=
  .error (.runtimeError "del operator is not allowed")

/-- `Taxonomy.__iter__`: iteration over the store's keys. -/
def Taxonomy.iter (t : Taxonomy) : List String := t.store.map Prod.fst

/-- `Taxonomy.__len__`. -/
def Taxonomy.len (t : Taxonomy) : Nat := t.store.length

/-! ### The Build command (`processor/build.py`) -/

/-- Modelled from the spec (`processor.core.command` is not among the
sources): a `BuildCommandScript` wraps one command vector, the single
constructor argument the source passes
(`BuildCommandScript(metadata.common.build_command)`). -/
structure BuildCommandScript where
  command : List String
deriving DecidableEq, Repr

/-- Modelled from the spec (`processor.core.command` is not among the
sources): the execution request bundles the resolved metadata, the
worktree, the ordered script list and the streaming flag, in the argument
order of `DockerExecInfo(metadata, worktree, commands, stream)`. -/
structure DockerExecInfo where
  metadata : MetaData
  worktree : String
  scripts : List BuildCommandScript
  stream : Bool
deriving DecidableEq, Repr

/-- Modelled from the spec (`processor.core.argparser` is not among the
sources): the parsed arguments `BuildCommand.run` consumes — the checkout
path and the `--coverage` and `--verbose` flags. -/
structure BuildArgs where
  path : String
  coverage : Bool
  verbose : Bool
deriving DecidableEq, Repr

/-- Errors that can surface from `BuildCommand.run`: a taxonomy-load error
propagated from the `metadata.common` property access, or the
`AttributeError` Python would raise if that property returned `None`. -/
inductive RunError where
  | taxonomyInit (e : DppTaxonomyInitError)
  | attributeError
deriving DecidableEq, Repr

/-- `BuildCommand.run` after argument parsing and `read_config` (both
external): `metadata` and `worktree` are the resolved values, `doc` the
descriptor document on disk.  Both branches of the source's conditional
expression access `metadata.common` exactly once, so the access is hoisted
before the branch; the chosen field is `build_coverage_command` when
`--coverage` was given and `build_command` otherwise, and
`stream = True if args.verbose else False`. -/
def BuildCommand.run (dppMakeJob : String) (doc : RawMeta)
    (args : BuildArgs) (metadata : MetaData) (worktree : String) :
    Except RunError DockerExecInfo :=
  match MetaData.commonAccess dppMakeJob doc metadata with
  | (.error e, _, _) => .error (.taxonomyInit e)
  | (.ok none, _, _) => .error .attributeError
  | (.ok (some c), st2, _) =>
    let commands :=
      if args.coverage then [BuildCommandScript.mk c.build_coverage_command]
      else [BuildCommandScript.mk c.build_command]
    .ok ⟨st2, worktree, commands, if args.verbose then true else false⟩

/-! ### Sample descriptor documents (concrete inputs for witnesses) -/

/-- A fully populated `info` section. -/
def sampleInfo : RawInfo :=
  ⟨some "https://example.org/yara", some "a sample project", some "git"⟩

/-- A fully populated `common` section, with the job marker occurring in
the build command. -/
def sampleCommon : RawCommon :=
  ⟨some ⟨some ["make", "-j@DPP_MAKE_JOB@"]⟩,
   some ⟨some ["make", "coverage"]⟩,
   some "automake",
   some ⟨some ["make", "check"]⟩,
   some ⟨some ["make", "check-coverage"]⟩,
   some ⟨some ["*/tests/*"], some ["gcov", "-b"]⟩⟩

/-- A defect entry with patch index 3. -/
def sampleDefect : RawDefect := ⟨some "deadbeef", some 3, some 2⟩

/-- A well-formed descriptor with one defect. -/
def sampleDoc : RawMeta := ⟨some sampleInfo, some sampleCommon, some [sampleDefect]⟩

/-- A descriptor whose `common` section is absent but whose `defects`
array is well formed. -/
def docBadCommon : RawMeta := ⟨some sampleInfo, none, some [sampleDefect]⟩

/-- A well-formed descriptor whose `defects` array is empty. -/
def docEmptyDefects : RawMeta := ⟨some sampleInfo, some sampleCommon, some []⟩

/-- A descriptor whose single defect entry omits `hash`. -/
def docMissingHash : RawMeta :=
  ⟨some sampleInfo, some sampleCommon, some [⟨none, some 1, some 1⟩]⟩

/-- A descriptor whose `info` section omits `url`. -/
def docMissingUrl : RawMeta :=
  ⟨some ⟨none, some "a sample project", some "git"⟩, some sampleCommon,
   some [sampleDefect]⟩

/-- A descriptor whose `common` section omits `test-type`. -/
def docMissingTestType : RawMeta :=
  ⟨some sampleInfo,
   some ⟨some ⟨some ["make", "-j@DPP_MAKE_JOB@"]⟩,
         some ⟨some ["make", "coverage"]⟩,
         none,
         some ⟨some ["make", "check"]⟩,
         some ⟨some ["make", "check-coverage"]⟩,
         some ⟨some ["*/tests/*"], some ["gcov", "-b"]⟩⟩,
   some [sampleDefect]⟩

/-- A descriptor whose `common.test-type` is the unrecognized string
`cmake`. -/
def docUnknownTestType : RawMeta :=
  ⟨some sampleInfo,
   some ⟨some ⟨some ["make", "-j@DPP_MAKE_JOB@"]⟩,
         some ⟨some ["make", "coverage"]⟩,
         some "cmake",
         some ⟨some ["make", "check"]⟩,
         some ⟨some ["make", "check-coverage"]⟩,
         some ⟨some ["*/tests/*"], some ["gcov", "-b"]⟩⟩,
   some [sampleDefect]⟩

/-- The state reached by a successful load of `sampleDoc` from a fresh
`MetaData`. -/
def sampleLoaded : MetaData :=
  (MetaData.load "8" sampleDoc (MetaData.init "yara" "/tax/yara")).1

/-! ### Helper lemmas about `MetaData.load` -/

theorem load_ok_of_phases (jm : String) (doc : RawMeta) (st : MetaData)
    (ds : List Defect) (c : Common) (i : MetaInfo)
    (h1 : MetaData.load_info st._path doc = .ok ds)
    (h2 : MetaData.load_common jm doc = .ok c)
    (h3 : MetaData.load_defects doc = .ok i) :
    MetaData.load jm doc st =
      ({ st with _defects := ds, _common := some c, _info := some i },
       none) := by
  simp [MetaData.load, h1, h2, h3]

theorem load_err_info (jm : String) (doc : RawMeta) (st : MetaData)
    (e : DppTaxonomyInitError)
    (h : MetaData.load_info st._path doc = .error e) :
    MetaData.load jm doc st = (st, some e) := by
  simp [MetaData.load, h]

theorem load_err_common (jm : String) (doc : RawMeta) (st : MetaData)
    (ds : List Defect) (e : DppTaxonomyInitError)
    (h1 : MetaData.load_info st._path doc = .ok ds)
    (h2 : MetaData.load_common jm doc = .error e) :
    MetaData.load jm doc st = ({ st with _defects := ds }, some e) := by
  simp [MetaData.load, h1, h2]

theorem load_err_defects (jm : String) (doc : RawMeta) (st : MetaData)
    (ds : List Defect) (c : Common) (e : DppTaxonomyInitError)
    (h1 : MetaData.load_info st._path doc = .ok ds)
    (h2 : MetaData.load_common jm doc = .ok c)
    (h3 : MetaData.load_defects doc = .error e) :
    MetaData.load jm doc st =
      ({ st with _defects := ds, _common := some c }, some e) := by
  simp [MetaData.load, h1, h2, h3]

theorem load_none_shape (jm : String) (doc : RawMeta) (st st1 : MetaData)
    (h : MetaData.load jm doc st = (st1, none)) :
    ∃ ds c i,
      MetaData.load_info st._path doc = .ok ds ∧
      MetaData.load_common jm doc = .ok c ∧
      MetaData.load_defects doc = .ok i ∧
      st1 = { st with _defects := ds, _common := some c, _info := some i } := by
  cases h1 : MetaData.load_info st._path doc with
  | error e => simp [MetaData.load, h1] at h
  | ok ds =>
    cases h2 : MetaData.load_common jm doc with
    | error e => simp [MetaData.load, h1, h2] at h
    | ok c =>
      cases h3 : MetaData.load_defects doc with
      | error e => simp [MetaData.load, h1, h2, h3] at h
      | ok i =>
        refine ⟨ds, c, i, rfl, rfl, rfl, ?_⟩
        simp [MetaData.load, h1, h2, h3] at h
        exact h.symm

/-! ### Helper lemmas about the marker substitution -/

theorem isPre_refl (l : List Char) : isPre l l = true := by
  induction l with
  | nil => rfl
  | cons a as ih => simp [isPre, ih]

theorem replaceCharsAux_nil (pat rep : List Char) (fuel : Nat) :
    replaceCharsAux pat rep fuel [] = [] := by
  cases fuel <;> rfl

/-- Replacing a non-empty pattern inside itself yields exactly the
replacement. -/
theorem replaceChars_self (p : Char) (ps rep : List Char) :
    replaceChars (p :: ps) rep (p :: ps) = rep := by
  have hdrop : List.drop ((p :: ps).length - 1) ps = [] := by
    simp [List.drop_length]
  simp [replaceChars, replaceCharsAux, isPre_refl, hdrop, replaceCharsAux_nil]

/-- A token equal to the job marker is replaced by the resolved value. -/
theorem pyReplace_marker (jm : String) :
    pyReplace "@DPP_MAKE_JOB@" "@DPP_MAKE_JOB@" jm = jm := by
  show String.mk (replaceChars ('@' :: "DPP_MAKE_JOB@".data) jm.data
      ('@' :: "DPP_MAKE_JOB@".data)) = jm
  rw [replaceChars_self]

/-- A string in which the pattern never occurs is left unchanged. -/
theorem replaceCharsAux_not_sub (pat rep : List Char) :
    ∀ (fuel : Nat) (s : List Char), hasSub pat s = false →
      replaceCharsAux pat rep fuel s = s := by
  intro fuel
  induction fuel with
  | zero => intro s _; cases s <;> rfl
  | succ n ih =>
    intro s hs
    cases s with
    | nil => rfl
    | cons c rest =>
      simp [hasSub] at hs
      simp [replaceCharsAux, hs.1, ih rest hs.2]

/-- A command token in which the job marker never occurs passes through
the substitution unchanged. -/
theorem pyReplace_not_sub (opt jm : String)
    (h : hasSub ("@DPP_MAKE_JOB@".data) opt.data = false) :
    pyReplace opt "@DPP_MAKE_JOB@" jm = opt := by
  show String.mk (replaceChars "@DPP_MAKE_JOB@".data jm.data opt.data) = opt
  rw [replaceChars, replaceCharsAux_not_sub _ _ _ _ h]

/-! ### Helper lemma: the exact shape of a successful `_load_common` -/

theorem load_common_shape (jm : String) (doc : RawMeta) (com : RawCommon)
    (bcmd bccmd tcmd tccmd gex gcmd : List String) (tt : String)
    (h0 : doc.common = some com)
    (hb : com.build = some ⟨some bcmd⟩)
    (hbc : com.build_coverage = some ⟨some bccmd⟩)
    (ht : com.test_type = some tt)
    (hte : com.test = some ⟨some tcmd⟩)
    (htc : com.test_coverage = some ⟨some tccmd⟩)
    (hg : com.gcov = some ⟨some gex, some gcmd⟩) :
    MetaData.load_common jm doc = .ok (Common.mk
      (replace_make_job_flags jm bcmd)
      (replace_make_job_flags jm bccmd)
      (to_enum tt)
      (replace_make_job_flags jm tcmd)
      (replace_make_job_flags jm tccmd)
      (Gcov.mk (gex.map (fun d => d)) gcmd)) := by
  simp [MetaData.load_common, getKey, h0, hb, hbc, ht, hte, htc, hg,
    Bind.bind, Except.bind, Functor.map, Except.map, pure, Except.pure]

end Defects4cpp

namespace Defects4cpp

/-! ### Further concrete states for witnesses -/

/-- The `Common` value a successful load of `sampleDoc` produces with
`DPP_MAKE_JOB = "8"`. -/
def sampleCommonLoaded : Common :=
  ⟨["make", "-j8"], ["make", "coverage"], some TestType.Automake,
   ["make", "check"], ["make", "check-coverage"],
   ⟨["*/tests/*"], ["gcov", "-b"]⟩⟩

/-- The state after a failed load of `docBadCommon` from a fresh
`MetaData`: the defect list is already cached, info and common are not. -/
def failedState : MetaData :=
  (MetaData.load "8" docBadCommon (MetaData.init "yara" "/tax/yara")).1

/-- The Defect record a load of `sampleDoc` with path /tax/yara builds. -/
def sampleDefectLoaded : Defect :=
  ⟨"deadbeef", "/tax/yara/patch/0003-buggy.patch",
   "/tax/yara/patch/0003-split.patch", 2⟩

/-- A state with empty defects but stale info cached from elsewhere. -/
def staleState : MetaData :=
  ⟨"yara", "/tax/yara", some ⟨"old", "old", "old"⟩, none, []⟩

/-! ### Claim theorems -/

/-- C4: for every key and value, setting or deleting a Taxonomy registry
entry raises a runtime error unconditionally (for any registry state,
before or after any load) and never produces an updated registry. -/
theorem c4_registry_mutation_rejected (t : Taxonomy) (key : String)
    (value : MetaData) :
    Taxonomy.setitem t key value =
      .error (.runtimeError "set operator is not allowed") ∧
    Taxonomy.delitem t key =
      .error (.runtimeError "del operator is not allowed") :=
  ⟨rfl, rfl⟩

/-- C6: for every raw defect entry with numeric patch index, the loader
derives the two patch paths as the project path joined with the patch
subdirectory and the zero-padded index followed by -buggy.patch and
-split.patch; index 3 yields 0003-..., index 15 yields 0015-.... -/
theorem c6_patch_path_derivation (path hsh : String) (p cs : Nat) :
    buildDefect path ⟨some hsh, some p, some cs⟩ =
      .ok ⟨hsh, path ++ "/patch/" ++ pad4 p ++ "-buggy.patch",
           path ++ "/patch/" ++ pad4 p ++ "-split.patch", cs⟩ ∧
    pad4 3 = "0003" ∧ pad4 15 = "0015" :=
  ⟨rfl, rfl, rfl⟩

/-- C2: evaluation at the failing inputs.  A required field missing from a
defects entry is reported with record name MetaInfo (the claim and the
spec say Defect), and one missing from the info section is reported with
record name Defect (the claim says MetaInfo); only the common section is
reported as the claim says. -/
theorem c2_error_record_names_eval :
    MetaData.load_info "/tax/yara" docMissingHash =
      .error ⟨"hash", "MetaInfo"⟩ ∧
    MetaData.load_defects docMissingUrl = .error ⟨"url", "Defect"⟩ ∧
    MetaData.load_common "8" docMissingTestType =
      .error ⟨"test-type", "Common"⟩ :=
  ⟨rfl, rfl, rfl⟩

/-- C8: the registry lookup asserts that the key's meta.json exists under
the key's project directory before touching the store: if the file does
not exist the lookup fails with a message naming the missing project, and
a successful lookup implies the file exists and the returned MetaData is
exactly the stored one (no lazy load is performed by the lookup). -/
theorem c8_getitem_descriptor_check (fsExists : String → Bool)
    (t : Taxonomy) (key : String) :
    (fsExists (joinPath (joinPath t.base key) "meta.json") = false →
      Taxonomy.getitem fsExists t key =
        .error (.assertionError
          ("Taxonomy " ++ squote ++ key ++ squote ++ " does not exist"))) ∧
    (∀ md, Taxonomy.getitem fsExists t key = .ok md →
      fsExists (joinPath (joinPath t.base key) "meta.json") = true ∧
      t.store.lookup key = some md) := by
  constructor
  · intro h
    simp [Taxonomy.getitem, Taxonomy.keytransform, h]
  · intro md h
    cases hf : fsExists (joinPath (joinPath t.base key) "meta.json") with
    | false => simp [Taxonomy.getitem, Taxonomy.keytransform, hf] at h
    | true =>
      refine ⟨rfl, ?_⟩
      simp [Taxonomy.getitem, Taxonomy.keytransform, hf] at h
      cases hl : t.store.lookup key with
      | none => simp [hl] at h
      | some v => simp [hl] at h; rw [h]

/-- Witness for C8 at a concrete missing descriptor. -/
theorem c8_getitem_descriptor_check_wit :
    Taxonomy.getitem (fun _ => false) ⟨"/tax", []⟩ "yara" =
      .error (.assertionError
        ("Taxonomy " ++ squote ++ "yara" ++ squote ++ " does not exist")) :=
  (c8_getitem_descriptor_check (fun _ => false) ⟨"/tax", []⟩ "yara").1 rfl

/-- C9: the test-type mapping sends automake, ctest and gtest to the three
enum values; every other string yields none without an error, and a load
whose descriptor is otherwise complete succeeds with a null test_type. -/
theorem c9_test_type_mapping :
    to_enum "automake" = some TestType.Automake ∧
    to_enum "ctest" = some TestType.CTest ∧
    to_enum "gtest" = some TestType.GoogleTest ∧
    (∀ s, s ≠ "automake" → s ≠ "ctest" → s ≠ "gtest" → to_enum s = none) ∧
    (∀ (jm : String) (doc : RawMeta) (com : RawCommon)
        (bcmd bccmd tcmd tccmd gex gcmd : List String) (tt : String),
      doc.common = some com →
      com.build = some ⟨some bcmd⟩ →
      com.build_coverage = some ⟨some bccmd⟩ →
      com.test_type = some tt →
      com.test = some ⟨some tcmd⟩ →
      com.test_coverage = some ⟨some tccmd⟩ →
      com.gcov = some ⟨some gex, some gcmd⟩ →
      tt ≠ "automake" → tt ≠ "ctest" → tt ≠ "gtest" →
      MetaData.load_common jm doc = .ok (Common.mk
        (replace_make_job_flags jm bcmd)
        (replace_make_job_flags jm bccmd)
        none
        (replace_make_job_flags jm tcmd)
        (replace_make_job_flags jm tccmd)
        (Gcov.mk (gex.map (fun d => d)) gcmd))) := by
  refine ⟨rfl, rfl, rfl, ?_, ?_⟩
  · intro s h1 h2 h3
    simp [to_enum, h1, h2, h3]
  · intro jm doc com bcmd bccmd tcmd tccmd gex gcmd tt h0 hb hbc ht hte htc
      hg n1 n2 n3
    have hsh := load_common_shape jm doc com bcmd bccmd tcmd tccmd gex gcmd
      tt h0 hb hbc ht hte htc hg
    have ht0 : to_enum tt = none := by simp [to_enum, n1, n2, n3]
    rw [hsh, ht0]

/-- Witness for C9 at the concrete unrecognized test-type cmake. -/
theorem c9_test_type_mapping_wit :
    MetaData.load_common "8" docUnknownTestType = .ok (Common.mk
      (replace_make_job_flags "8" ["make", "-j@DPP_MAKE_JOB@"])
      (replace_make_job_flags "8" ["make", "coverage"])
      none
      (replace_make_job_flags "8" ["make", "check"])
      (replace_make_job_flags "8" ["make", "check-coverage"])
      (Gcov.mk ((["*/tests/*"] : List String).map (fun d => d))
        ["gcov", "-b"])) :=
  c9_test_type_mapping.2.2.2.2 "8" docUnknownTestType _
    ["make", "-j@DPP_MAKE_JOB@"] ["make", "coverage"] ["make", "check"]
    ["make", "check-coverage"] ["*/tests/*"] ["gcov", "-b"] "cmake"
    rfl rfl rfl rfl rfl rfl rfl
    (by decide) (by decide) (by decide)

/-- C7: within one load, each of the four build/test command vectors is
exactly the raw vector with the same per-token marker substitution (the
same resolved value in all four, and nothing else is applied — the gcov
vector is passed through raw); a token equal to the marker becomes the
resolved value, and a token without an occurrence of the marker is left
unchanged. -/
theorem c7_job_marker_substitution (jm : String) (doc : RawMeta)
    (com : RawCommon) (bcmd bccmd tcmd tccmd gex gcmd : List String)
    (tt : String)
    (h0 : doc.common = some com)
    (hb : com.build = some ⟨some bcmd⟩)
    (hbc : com.build_coverage = some ⟨some bccmd⟩)
    (ht : com.test_type = some tt)
    (hte : com.test = some ⟨some tcmd⟩)
    (htc : com.test_coverage = some ⟨some tccmd⟩)
    (hg : com.gcov = some ⟨some gex, some gcmd⟩) :
    MetaData.load_common jm doc = .ok (Common.mk
      (bcmd.map (fun opt => pyReplace opt "@DPP_MAKE_JOB@" jm))
      (bccmd.map (fun opt => pyReplace opt "@DPP_MAKE_JOB@" jm))
      (to_enum tt)
      (tcmd.map (fun opt => pyReplace opt "@DPP_MAKE_JOB@" jm))
      (tccmd.map (fun opt => pyReplace opt "@DPP_MAKE_JOB@" jm))
      (Gcov.mk (gex.map (fun d => d)) gcmd)) ∧
    pyReplace "@DPP_MAKE_JOB@" "@DPP_MAKE_JOB@" jm = jm ∧
    (∀ opt, hasSub ("@DPP_MAKE_JOB@".data) opt.data = false →
      pyReplace opt "@DPP_MAKE_JOB@" jm = opt) :=
  ⟨load_common_shape jm doc com bcmd bccmd tcmd tccmd gex gcmd tt
      h0 hb hbc ht hte htc hg,
   pyReplace_marker jm,
   fun opt h => pyReplace_not_sub opt jm h⟩

/-- Witness for C7 at the sample descriptor. -/
theorem c7_job_marker_substitution_wit :
    MetaData.load_common "8" sampleDoc = .ok (Common.mk
      ((["make", "-j@DPP_MAKE_JOB@"] : List String).map
        (fun opt => pyReplace opt "@DPP_MAKE_JOB@" "8"))
      ((["make", "coverage"] : List String).map
        (fun opt => pyReplace opt "@DPP_MAKE_JOB@" "8"))
      (to_enum "automake")
      ((["make", "check"] : List String).map
        (fun opt => pyReplace opt "@DPP_MAKE_JOB@" "8"))
      ((["make", "check-coverage"] : List String).map
        (fun opt => pyReplace opt "@DPP_MAKE_JOB@" "8"))
      (Gcov.mk ((["*/tests/*"] : List String).map (fun d => d))
        ["gcov", "-b"])) :=
  (c7_job_marker_substitution "8" sampleDoc sampleCommon
    ["make", "-j@DPP_MAKE_JOB@"] ["make", "coverage"] ["make", "check"]
    ["make", "check-coverage"] ["*/tests/*"] ["gcov", "-b"] "automake"
    rfl rfl rfl rfl rfl rfl rfl).1

/-- C5: whenever the metadata's common property resolves successfully,
BuildCommand.run returns a request with exactly one script, wrapping the
coverage build command when the coverage flag is set and the plain build
command otherwise, and the stream flag equals the verbose flag. -/
theorem c5_build_run_one_script (jm : String) (doc : RawMeta)
    (args : BuildArgs) (st : MetaData) (worktree : String)
    (c : Common) (st2 : MetaData) (b : Bool)
    (h : MetaData.commonAccess jm doc st = (.ok (some c), st2, b)) :
    BuildCommand.run jm doc args st worktree =
      .ok ⟨st2, worktree,
        [BuildCommandScript.mk
          (if args.coverage then c.build_coverage_command
           else c.build_command)],
        args.verbose⟩ := by
  rcases args with ⟨p, cov, verb⟩
  cases cov <;> cases verb <;> simp [BuildCommand.run, h]

/-- Witness for C5 at the sample descriptor with coverage on, verbose off. -/
theorem c5_build_run_one_script_wit :
    BuildCommand.run "8" sampleDoc ⟨"/wt", true, false⟩
        (MetaData.init "yara" "/tax/yara") "/wt" =
      .ok ⟨sampleLoaded, "/wt",
        [BuildCommandScript.mk sampleCommonLoaded.build_coverage_command],
        false⟩ :=
  c5_build_run_one_script "8" sampleDoc ⟨"/wt", true, false⟩
    (MetaData.init "yara" "/tax/yara") "/wt" sampleCommonLoaded
    sampleLoaded true rfl

/-- C10: if the descriptor's defects list is empty, the defects property is
never treated as cached: from any state whose defect cache is empty (the
only states such a descriptor can produce), an access re-reads the
descriptor, and on success it replaces info and common with the freshly
constructed records and leaves the defect cache empty again. -/
theorem c10_empty_defects_reread (jm : String) (doc : RawMeta)
    (st : MetaData)
    (hdoc : doc.defects = some [])
    (hst : st._defects = []) :
    (MetaData.defectsAccess jm doc st).2.2 = true ∧
    (∀ c i, MetaData.load_common jm doc = .ok c →
      MetaData.load_defects doc = .ok i →
      MetaData.defectsAccess jm doc st =
        (.ok [],
         { st with _defects := ([] : List Defect), _common := some c, _info := some i },
         true)) := by
  have hinfo : MetaData.load_info st._path doc = .ok [] := by
    simp [MetaData.load_info, hdoc, getKey, Bind.bind, Except.bind,
      List.mapM, List.mapM.loop, pure, Except.pure]
  have hempty : st._defects.isEmpty = true := by simp [hst]
  constructor
  · cases hload : MetaData.load jm doc st with
    | mk st2 err => cases err <;> simp [MetaData.defectsAccess, hempty, hload]
  · intro c i hc hi
    have hok := load_ok_of_phases jm doc st [] c i hinfo hc hi
    simp [MetaData.defectsAccess, hempty, hok]

/-- Witness for C10: an access from a state with stale cached info
re-reads the empty-defects descriptor and overwrites all three fields. -/
theorem c10_empty_defects_reread_wit :
    MetaData.defectsAccess "8" docEmptyDefects staleState =
      (.ok [],
       { staleState with _defects := ([] : List Defect), _common := some sampleCommonLoaded, _info := some ⟨"https://example.org/yara", "a sample project", "git"⟩ },
       true) :=
  (c10_empty_defects_reread "8" docEmptyDefects staleState rfl rfl).2
    sampleCommonLoaded ⟨"https://example.org/yara", "a sample project", "git"⟩
    rfl rfl

/-- C3 counterexample: a descriptor with an empty defects list parses
successfully, yet two successive accesses of the defects property each
read the descriptor file, so the file is not read exactly once. -/
theorem c3_read_once_cex :
    (MetaData.load "8" docEmptyDefects (MetaData.init "p" "/p")).2 = none ∧
    (MetaData.defectsAccess "8" docEmptyDefects
      (MetaData.init "p" "/p")).2.2 = true ∧
    (MetaData.defectsAccess "8" docEmptyDefects
      ((MetaData.defectsAccess "8" docEmptyDefects
        (MetaData.init "p" "/p")).2.1)).2.2 = true :=
  ⟨rfl, rfl, rfl⟩

/-- C3 amended: for every MetaData whose descriptor parses successfully
and yields a non-empty defects list, the first access of any of the three
lazy fields reads the file once and populates all three, and every
subsequent access of any of the three returns the identical cached value
without reading the file again. -/
theorem c3_load_idempotent_amended (jm : String) (doc : RawMeta)
    (name path : String) (st1 : MetaData)
    (h : MetaData.load jm doc (MetaData.init name path) = (st1, none))
    (hne : st1._defects ≠ []) :
    MetaData.infoAccess jm doc (MetaData.init name path) =
      (.ok st1._info, st1, true) ∧
    MetaData.commonAccess jm doc (MetaData.init name path) =
      (.ok st1._common, st1, true) ∧
    MetaData.defectsAccess jm doc (MetaData.init name path) =
      (.ok st1._defects, st1, true) ∧
    st1._info.isSome = true ∧ st1._common.isSome = true ∧
    MetaData.infoAccess jm doc st1 = (.ok st1._info, st1, false) ∧
    MetaData.commonAccess jm doc st1 = (.ok st1._common, st1, false) ∧
    MetaData.defectsAccess jm doc st1 = (.ok st1._defects, st1, false) := by
  obtain ⟨ds, c, i, h1, h2, h3, hshape⟩ := load_none_shape jm doc _ st1 h
  have hds : st1._defects = ds := by rw [hshape]
  have hic : st1._info = some i := by rw [hshape]
  have hcc : st1._common = some c := by rw [hshape]
  have hdse : st1._defects.isEmpty = false := by
    cases hv : st1._defects with
    | nil => exact absurd hv hne
    | cons a l => rfl
  simp only [MetaData.init] at h
  refine ⟨?_, ?_, ?_, ?_, ?_, ?_, ?_, ?_⟩
  · simp [MetaData.infoAccess, MetaData.init, h]
  · simp [MetaData.commonAccess, MetaData.init, h]
  · simp [MetaData.defectsAccess, MetaData.init, h]
  · simp [hic]
  · simp [hcc]
  · simp [MetaData.infoAccess, hic]
  · simp [MetaData.commonAccess, hcc]
  · simp [MetaData.defectsAccess, hdse]

/-- Witness for C3 (amended) at the sample descriptor. -/
theorem c3_load_idempotent_amended_wit :
    MetaData.defectsAccess "8" sampleDoc sampleLoaded =
      (.ok sampleLoaded._defects, sampleLoaded, false) :=
  (c3_load_idempotent_amended "8" sampleDoc "yara" "/tax/yara" sampleLoaded
    rfl (by decide)).2.2.2.2.2.2.2

/-- C1 counterexample: for a descriptor whose common section is missing
but whose defects entries parse, the first info access raises the load
error, yet the defects field does not remain in its unloaded state []: it
is left populated, so a lazy field is cached on failure. -/
theorem c1_no_partial_cache_cex :
    (MetaData.infoAccess "8" docBadCommon (MetaData.init "p" "/p")).1 =
      .error ⟨"common", "Common"⟩ ∧
    ((MetaData.infoAccess "8" docBadCommon
      (MetaData.init "p" "/p")).2.1)._defects ≠ [] :=
  ⟨rfl, by decide⟩

/-- C1 amended: if the lazy load raises while building the defect list, no
lazy field is cached (the state is unchanged); if it raises in the common
phase, the freshly built defect list is cached; if it raises in the info
phase, the defect list and common are cached.  In every case info and
common stay unloaded at and past the failing phase, and a later access of
info with corrected input re-reads the descriptor and populates all three
fields. -/
theorem c1_failure_caching_amended (jm : String) (doc good : RawMeta)
    (st : MetaData) :
    (∀ e, MetaData.load_info st._path doc = .error e →
      MetaData.load jm doc st = (st, some e)) ∧
    (∀ ds e, MetaData.load_info st._path doc = .ok ds →
      MetaData.load_common jm doc = .error e →
      MetaData.load jm doc st = ({ st with _defects := ds }, some e)) ∧
    (∀ ds c e, MetaData.load_info st._path doc = .ok ds →
      MetaData.load_common jm doc = .ok c →
      MetaData.load_defects doc = .error e →
      MetaData.load jm doc st =
        ({ st with _defects := ds, _common := some c }, some e)) ∧
    (∀ st1, st._info = none → MetaData.load jm good st = (st1, none) →
      MetaData.infoAccess jm good st = (.ok st1._info, st1, true) ∧
      st1._info.isSome = true ∧ st1._common.isSome = true ∧
      (∀ ds1, MetaData.load_info st._path good = .ok ds1 →
        st1._defects = ds1)) := by
  refine ⟨?_, ?_, ?_, ?_⟩
  · intro e h; exact load_err_info jm doc st e h
  · intro ds e h1 h2; exact load_err_common jm doc st ds e h1 h2
  · intro ds c e h1 h2 h3; exact load_err_defects jm doc st ds c e h1 h2 h3
  · intro st1 hnone hload
    obtain ⟨ds, c, i, h1, h2, h3, hshape⟩ := load_none_shape jm good st st1 hload
    have hic : st1._info = some i := by rw [hshape]
    have hcc : st1._common = some c := by rw [hshape]
    refine ⟨?_, by simp [hic], by simp [hcc], ?_⟩
    · simp [MetaData.infoAccess, hnone, hload]
    · intro ds1 hds1
      rw [h1] at hds1
      cases hds1
      rw [hshape]

/-- Witness for C1 (amended): the concrete failed load caches the defect
list, and a later info access on the corrected descriptor from the failed
state loads all three fields. -/
theorem c1_failure_caching_amended_wit :
    MetaData.load "8" docBadCommon (MetaData.init "yara" "/tax/yara") =
      ({ MetaData.init "yara" "/tax/yara" with _defects := [sampleDefectLoaded] },
       some ⟨"common", "Common"⟩) ∧
    MetaData.infoAccess "8" sampleDoc failedState =
      (.ok sampleLoaded._info, sampleLoaded, true) :=
  ⟨(c1_failure_caching_amended "8" docBadCommon sampleDoc
      (MetaData.init "yara" "/tax/yara")).2.1
      [sampleDefectLoaded]
      ⟨"common", "Common"⟩ rfl rfl,
   ((c1_failure_caching_amended "8" docBadCommon sampleDoc
      failedState).2.2.2 sampleLoaded rfl rfl).1⟩

end Defects4cpp
